import Mathlib

/-!
Shallow embedding of the client-side media composition pipeline of the
postwave repository (static/js application source): the selected-files
list, the per-index crop-geometry map (`cropData`), the carousel cursor,
the reorder operations, ingestion/downscaling, and the crop-geometry
computations.  Geometry is embedded over `ℚ` (JavaScript numbers used by
the source are IEEE doubles; all claims here concern the exact algebraic
content of the formulas).  Definitions mirror the source functions; file
contents and crop entries are kept abstract where the source only moves
them around.
-/

namespace Postwave

/-- The ambient mutable state of the new-post composer: `selectedFiles`
(the ordered item list), `cropData` (the per-index crop map, a JS object
keyed by numeric index, embedded as `Nat → Option β`), and
`currentCarouselIndex` (the preview cursor).  `α` is the file payload
type, `β` the crop-entry type; the reorder operations move both around
without inspecting them. -/
structure ComposerState (α β : Type) where
  selectedFiles : List α
  cropData : Nat → Option β
  currentCarouselIndex : Nat

/-- Swap of two list positions, as performed by the three-assignment
swap in `moveMediaUp`/`moveMediaDown`.  For in-range indices this is
exactly the source's behaviour; the claims only concern in-range
indices. -/
def listSwap {α : Type} (l : List α) (i j : Nat) : List α :=
  match l[i]?, l[j]? with
  | some a, some b => (l.set i b).set j a
  | _, _ => l

/-- Embedding of `moveMediaUp(index)`: guarded by `index > 0`; swaps
`selectedFiles[index]` with `selectedFiles[index-1]`, swaps the two
`cropData` entries, and moves the cursor with the swapped pair. -/
def moveMediaUp {α β : Type} (s : ComposerState α β) (index : Nat) :
    ComposerState α β :=
  if 0 < index then
    { selectedFiles := listSwap s.selectedFiles index (index - 1)
      cropData := fun k =>
        if k = index then s.cropData (index - 1)
        else if k = index - 1 then s.cropData index
        else s.cropData k
      currentCarouselIndex :=
        if s.currentCarouselIndex = index then index - 1
        else if s.currentCarouselIndex = index - 1 then index
        else s.currentCarouselIndex }
  else s

/-- Embedding of `moveMediaDown(index)`: guarded by
`index < selectedFiles.length - 1`; swaps with the next item, swaps the
two `cropData` entries, and moves the cursor with the swapped pair. -/
def moveMediaDown {α β : Type} (s : ComposerState α β) (index : Nat) :
    ComposerState α β :=
  if index + 1 < s.selectedFiles.length then
    { selectedFiles := listSwap s.selectedFiles index (index + 1)
      cropData := fun k =>
        if k = index then s.cropData (index + 1)
        else if k = index + 1 then s.cropData index
        else s.cropData k
      currentCarouselIndex :=
        if s.currentCarouselIndex = index then index + 1
        else if s.currentCarouselIndex = index + 1 then index
        else s.currentCarouselIndex }
  else s

/-- Embedding of `moveMediaToFirst(index)`: guarded by `index > 0`;
splices the item out and unshifts it to the front, rebuilds the crop map
(keys below `index` shift up by one, keys above stay, the moved entry is
re-keyed to `0` when present), and updates the cursor (`index ↦ 0`,
cursor below `index` increments, others stay). -/
def moveMediaToFirst {α β : Type} (s : ComposerState α β) (index : Nat) :
    ComposerState α β :=
  if 0 < index then
    { selectedFiles :=
        match s.selectedFiles[index]? with
        | some x => x :: s.selectedFiles.eraseIdx index
        | none => s.selectedFiles
      cropData := fun k =>
        if k = 0 then s.cropData index
        else if k ≤ index then s.cropData (k - 1)
        else s.cropData k
      currentCarouselIndex :=
        if s.currentCarouselIndex = index then 0
        else if s.currentCarouselIndex < index then s.currentCarouselIndex + 1
        else s.currentCarouselIndex }
  else s

/-- Embedding of `moveMediaToLast(index)`: guarded by
`index < selectedFiles.length - 1`; splices the item out and pushes it
to the back, rebuilds the crop map (keys above `index` shift down by
one, keys below stay, the moved entry is re-keyed to the last index when
present — the conditional `if (itemCrop)` in the source is reflected by
the `isSome` test), and updates the cursor (`index ↦ last`, cursor above
`index` decrements, others stay). -/
def moveMediaToLast {α β : Type} (s : ComposerState α β) (index : Nat) :
    ComposerState α β :=
  if index + 1 < s.selectedFiles.length then
    { selectedFiles :=
        match s.selectedFiles[index]? with
        | some x => s.selectedFiles.eraseIdx index ++ [x]
        | none => s.selectedFiles
      cropData := fun k =>
        if k = s.selectedFiles.length - 1 ∧ (s.cropData index).isSome then
          s.cropData index
        else if k < index then s.cropData k
        else s.cropData (k + 1)
      currentCarouselIndex :=
        if s.currentCarouselIndex = index then s.selectedFiles.length - 1
        else if index < s.currentCarouselIndex then s.currentCarouselIndex - 1
        else s.currentCarouselIndex }
  else s

/-- Embedding of `removeMedia(index)`: splices the item out of
`selectedFiles` and resets the cursor to `0`.  The source does not touch
`cropData` at all. -/
def removeMedia {α β : Type} (s : ComposerState α β) (index : Nat) :
    ComposerState α β :=
  { selectedFiles := s.selectedFiles.eraseIdx index
    cropData := s.cropData
    currentCarouselIndex := 0 }

end Postwave

namespace Postwave

/-- A crop-geometry entry as it lives in the `cropData` JS object.  The
writers (`applyCrop`, `saveCropData`) set `cropped` and the four
center-based fields; the corner-based fields `x`, `y`, `width`, `height`
are read by `applyCropToFile` but are never written anywhere in the
source, so they are modelled as `Option ℚ` (with `none` for the JS
`undefined`). -/
structure CropDataEntry where
  cropped : Bool := false
  centerX : Option ℚ := none
  centerY : Option ℚ := none
  boxWidth : Option ℚ := none
  boxHeight : Option ℚ := none
  x : Option ℚ := none
  y : Option ℚ := none
  width : Option ℚ := none
  height : Option ℚ := none
deriving DecidableEq

/-- The box-dimension recomputation performed, with identical code, in
`displayMediaPreview` and `updatePreview` when rendering a stored crop
window under the current target ratio: try width = storedHeight·ratio if
it fits the image width, else height = storedWidth/ratio if it fits the
image height, else pick dimensions by comparing `storedW/imgW` with
`storedH/imgH`. -/
def recomputeBox (imgW imgH targetRatio storedW storedH : ℚ) : ℚ × ℚ :=
  if storedH * targetRatio ≤ imgW then (storedH * targetRatio, storedH)
  else if storedW / targetRatio ≤ imgH then (storedW, storedW / targetRatio)
  else if storedH / imgH < storedW / imgW then (storedW, storedW / targetRatio)
  else (storedH * targetRatio, storedH)

/-- The position/clamp step that follows `recomputeBox` in both preview
renderers: position the box at the stored center, clamp the top-left
corner into the image, then clamp width and height to the remaining
space. -/
def clampedCrop (imgW imgH centerX centerY boxW boxH : ℚ) : ℚ × ℚ × ℚ × ℚ :=
  let cropX := centerX - boxW / 2
  let cropY := centerY - boxH / 2
  let clampedX := max 0 (min cropX (imgW - boxW))
  let clampedY := max 0 (min cropY (imgH - boxH))
  (clampedX, clampedY, min boxW (imgW - clampedX), min boxH (imgH - clampedY))

/-- The box that the renderers position before clamping: top-left corner
derived from the stored center and the recomputed dimensions. -/
def preClampCrop (imgW imgH targetRatio centerX centerY storedW storedH : ℚ) :
    ℚ × ℚ × ℚ × ℚ :=
  let b := recomputeBox imgW imgH targetRatio storedW storedH
  (centerX - b.1 / 2, centerY - b.2 / 2, b.1, b.2)

/-- Full per-render crop region: `recomputeBox` followed by
`clampedCrop`, exactly the source-rectangle computation of
`displayMediaPreview`/`updatePreview`. -/
def renderCroppedRegion (imgW imgH targetRatio centerX centerY storedW storedH : ℚ) :
    ℚ × ℚ × ℚ × ℚ :=
  let b := recomputeBox imgW imgH targetRatio storedW storedH
  clampedCrop imgW imgH centerX centerY b.1 b.2

/-- Which resize handle is being dragged; `handle.includes('e')` and the
three analogous tests in `handleMouseMove` become the four flags. -/
structure ResizeHandle where
  east : Bool
  south : Bool
  west : Bool
  north : Bool
deriving DecidableEq

/-- The `isResizing` branch of `handleMouseMove`, in display-pixel
coordinates: per-handle size/position adjustment with the `minSize = 50`
floor, ratio maintenance (width drives height for east/west handles,
height drives width for south/north), then the four sequential
image-bounds constraint blocks of the source, in source order. -/
def resizeStep (hd : ResizeHandle) (targetRatio minSize : ℚ)
    (imageLeft imageTop imageW imageH : ℚ)
    (startLeft startTop startW startH deltaX deltaY : ℚ) : ℚ × ℚ × ℚ × ℚ :=
  let w1 := if hd.east then max minSize (startW + deltaX) else startW
  let h1 := if hd.south then max minSize (startH + deltaY) else startH
  let w2 := if hd.west then max minSize (startW - deltaX) else w1
  let x1 := if hd.west then startLeft + deltaX else startLeft
  let h2 := if hd.north then max minSize (startH - deltaY) else h1
  let y1 := if hd.north then startTop + deltaY else startTop
  let wh3 : ℚ × ℚ :=
    if hd.east ∨ hd.west then (w2, w2 / targetRatio)
    else if hd.south ∨ hd.north then (h2 * targetRatio, h2)
    else (w2, h2)
  let imageRight := imageLeft + imageW
  let imageBottom := imageTop + imageH
  let xw4 : ℚ × ℚ :=
    if x1 < imageLeft then (imageLeft, min wh3.1 (imageRight - imageLeft))
    else (x1, wh3.1)
  let yh4 : ℚ × ℚ :=
    if y1 < imageTop then (imageTop, min wh3.2 (imageBottom - imageTop))
    else (y1, wh3.2)
  let wh5 : ℚ × ℚ :=
    if imageRight < xw4.1 + xw4.2 then
      (imageRight - xw4.1, (imageRight - xw4.1) / targetRatio)
    else (xw4.2, yh4.2)
  let wh6 : ℚ × ℚ :=
    if imageBottom < yh4.1 + wh5.2 then
      ((imageBottom - yh4.1) * targetRatio, imageBottom - yh4.1)
    else wh5
  (xw4.1, yh4.1, wh6.1, wh6.2)

/-- The commit step of `applyCrop`: the display-space crop rectangle
(position relative to the displayed image, plus its size) is scaled by
`scaleX = naturalWidth / displayWidth`, `scaleY = naturalHeight /
displayHeight` into source-pixel coordinates and stored center-based
into the entry; the corner-based fields are not touched. -/
def applyCropStore (prev : Option CropDataEntry)
    (scaleX scaleY relLeft relTop boxW boxH : ℚ) : CropDataEntry :=
  let base := prev.getD {}
  { base with
    cropped := true
    centerX := some ((relLeft + boxW / 2) * scaleX)
    centerY := some ((relTop + boxH / 2) * scaleY)
    boxWidth := some (boxW * scaleX)
    boxHeight := some (boxH * scaleY) }

/-- Assigning a JS `undefined` to `canvas.width`/`canvas.height` coerces
through `NaN` to `0`; a present number is kept. -/
def jsCanvasDim (v : Option ℚ) : ℚ := v.getD 0

/-- `applyCropToFile(file, cropData)`: sizes the canvas from
`cropData.width`/`cropData.height` and draws the source rectangle
`(cropData.x, cropData.y, cropData.width, cropData.height)`.  The result
records the canvas dimensions and, when all four corner-based arguments
are defined, the source rectangle drawn; `drawImage` with any
non-finite (undefined) argument is a silent no-op, modelled by `none`. -/
def applyCropToFile (entry : CropDataEntry) :
    (ℚ × ℚ) × Option (ℚ × ℚ × ℚ × ℚ) :=
  ((jsCanvasDim entry.width, jsCanvasDim entry.height),
   match entry.x, entry.y, entry.width, entry.height with
   | some a, some b, some c, some d => some (a, b, c, d)
   | _, _, _, _ => none)

/-- One appended payload of the `handleCreatePost` media sequence. -/
inductive SubmitPayload (α : Type) where
  | original (file : α)
  | croppedBlob (result : (ℚ × ℚ) × Option (ℚ × ℚ × ℚ × ℚ))
deriving DecidableEq

/-- The per-item branch of `handleCreatePost`'s `processFiles` loop: an
item with a committed crop (`cropData[index] && cropData[index].cropped`)
is routed through `applyCropToFile`; every other item is appended
unmodified. -/
def handleCreatePostItem {α : Type} (file : α) (entry : Option CropDataEntry) :
    SubmitPayload α :=
  match entry with
  | some c => if c.cropped then .croppedBlob (applyCropToFile c) else .original file
  | none => .original file

/-- `MAX_FILE_SIZE = 8 * 1024 * 1024` from the source. -/
def MAX_FILE_SIZE : Nat := 8 * 1024 * 1024

/-- A selected file: name, mime type, byte size, and the natural pixel
dimensions its decoded bitmap would have. -/
structure JSFile where
  name : String
  ftype : String
  size : Nat
  naturalW : ℚ
  naturalH : ℚ
deriving DecidableEq

/-- The dimension computation of `resizeImage` (lines computing `width`,
`height` against `maxDimension = 1080`). -/
def resizeDims (w h : ℚ) : ℚ × ℚ :=
  if h < w ∧ 1080 < w then (1080, h * 1080 / w)
  else if 1080 < h then (w * 1080 / h, 1080)
  else (w, h)

/-- `resizeImage(file)`: decode (the browser decode is the external
parameter `decodeOk`; failure rejects), draw at the capped dimensions,
and re-encode via `canvas.toBlob(callback, file.type, 0.9)` (the
external encoder is the parameter `toBlob`, receiving the mime type, the
quality factor and the canvas dimensions); a null blob rejects with
`Failed to resize image`, otherwise the blob is wrapped in a `File`
keeping the original name and type. -/
def resizeImage (decodeOk : JSFile → Bool)
    (toBlob : String → ℚ → ℚ × ℚ → Option JSFile) (file : JSFile) :
    Except String JSFile :=
  if decodeOk file then
    match toBlob file.ftype (9 / 10) (resizeDims file.naturalW file.naturalH) with
    | some blob => .ok { blob with name := file.name, ftype := file.ftype }
    | none => .error "Failed to resize image"
  else .error "decode failed"

/-- `processImage(file)`: resize when the byte size exceeds
`MAX_FILE_SIZE`, otherwise resolve with the file unmodified. -/
def processImage (decodeOk : JSFile → Bool)
    (toBlob : String → ℚ → ℚ × ℚ → Option JSFile) (file : JSFile) :
    Except String JSFile :=
  if MAX_FILE_SIZE < file.size then resizeImage decodeOk toBlob file
  else .ok file

/-- The test `file.type.startsWith('image/')`, expressed over the
string's character data (the standard-library `String.startsWith` is the
prefix test on the character sequence). -/
def typeStartsWithImage (t : String) : Bool := "image/".data.isPrefixOf t.data

/-- The per-file body of `handleMediaSelect`'s processing loop: files
whose type starts with `image/` run through `processImage`, with the
`try/catch` pushing the original file on any failure; other files are
pushed unmodified. -/
def processFileStep (decodeOk : JSFile → Bool)
    (toBlob : String → ℚ → ℚ × ℚ → Option JSFile) (file : JSFile) : JSFile :=
  if typeStartsWithImage file.ftype then
    match processImage decodeOk toBlob file with
    | .ok p => p
    | .error _ => file
  else file

/-- `handleMediaSelect(e)`: if the newly selected batch alone has more
than 20 files the handler toasts an error and returns with the state
untouched; otherwise it assigns `selectedFiles = processedFiles`,
replacing the previous list, and touches neither `cropData` nor
`currentCarouselIndex`. -/
def handleMediaSelect {β : Type} (decodeOk : JSFile → Bool)
    (toBlob : String → ℚ → ℚ × ℚ → Option JSFile)
    (s : ComposerState JSFile β) (files : List JSFile) :
    ComposerState JSFile β :=
  if 20 < files.length then s
  else { s with selectedFiles := files.map (processFileStep decodeOk toBlob) }

/-- A small in-limit image file used as concrete input. -/
def smallFileA : JSFile :=
  { name := "a.jpg", ftype := "image/jpeg", size := 1000
    naturalW := 100, naturalH := 100 }

/-- A second small image file used as concrete input. -/
def smallFileB : JSFile :=
  { name := "b.jpg", ftype := "image/jpeg", size := 2000
    naturalW := 200, naturalH := 100 }

/-- An oversized (9 MB) image file used as concrete input. -/
def bigFile : JSFile :=
  { name := "big.jpg", ftype := "image/jpeg", size := 9000000
    naturalW := 2000, naturalH := 1000 }

/-- A non-image file used as concrete input. -/
def textFile : JSFile :=
  { name := "t.txt", ftype := "text/plain", size := 500
    naturalW := 0, naturalH := 0 }

/-- Claim C1 helper: the crop map and cursor that the spec's removal
example demands do not hold; evaluated below. -/
def removeExampleState : ComposerState Nat Nat :=
  { selectedFiles := [10, 11, 12]
    cropData := fun k => if k = 0 then some 100 else if k = 2 then some 102 else none
    currentCarouselIndex := 2 }

/-- Old-index → new-index permutation realised by `moveMediaUp(i)`. -/
def upPerm (i j : Nat) : Nat :=
  if j = i then i - 1 else if j = i - 1 then i else j

/-- Old-index → new-index permutation realised by `moveMediaDown(i)`. -/
def downPerm (i j : Nat) : Nat :=
  if j = i then i + 1 else if j = i + 1 then i else j

/-- Old-index → new-index permutation realised by `moveMediaToFirst(i)`. -/
def toFirstPerm (i j : Nat) : Nat :=
  if j = i then 0 else if j < i then j + 1 else j

/-- Old-index → new-index permutation realised by `moveMediaToLast(i)`
on a list of length `len`. -/
def toLastPerm (len i j : Nat) : Nat :=
  if j = i then len - 1 else if i < j then j - 1 else j

/-- Concrete four-item state exercising the reorder operations. -/
def reorderExampleState : ComposerState Nat Nat :=
  { selectedFiles := [10, 11, 12, 13]
    cropData := fun k =>
      if k = 0 then some 100 else if k = 2 then some 102 else none
    currentCarouselIndex := 2 }

/-- Concrete state with one selected small file and no crops. -/
def ingestExampleState : ComposerState JSFile Nat :=
  { selectedFiles := [smallFileA]
    cropData := fun _ => none
    currentCarouselIndex := 0 }

/-- Concrete state with fifteen selected files. -/
def fifteenState : ComposerState JSFile Nat :=
  { selectedFiles := List.replicate 15 smallFileA
    cropData := fun _ => none
    currentCarouselIndex := 0 }

/-- Concrete state with three selected files, a crop at index 2 and the
cursor at index 2. -/
def threeState : ComposerState JSFile Nat :=
  { selectedFiles := [smallFileA, smallFileB, smallFileA]
    cropData := fun k => if k = 2 then some 7 else none
    currentCarouselIndex := 2 }

end Postwave

open Postwave

/-- Claim C1: refuted on the source.  `removeMedia(0)` on the item list
`[A, B, C]` with crop windows stored for `A` (index 0) and `C` (index 2)
and the cursor on `C` leaves the crop map completely untouched and
forces the cursor to 0: the surviving item `C`, now at index 1, has no
crop entry at its index, `A`'s crop window is now keyed to `B`, `C`'s
crop window is orphaned at the out-of-range index 2, and the cursor no
longer references `C` even though `C` survived.  The claim instead
demands that the map be remapped (C's crop re-keyed to index 1) and that
the cursor keep referencing the same image when the removed item was not
the cursor. -/
theorem C1_removeMedia_no_remap_no_cursor_tracking :
    (removeMedia removeExampleState 0).selectedFiles = [11, 12] ∧
    (removeMedia removeExampleState 0).cropData = removeExampleState.cropData ∧
    (removeMedia removeExampleState 0).cropData 1 = none ∧
    (removeMedia removeExampleState 0).cropData 0 = some 100 ∧
    (removeMedia removeExampleState 0).cropData 2 = some 102 ∧
    (removeMedia removeExampleState 0).currentCarouselIndex = 0 := by
  refine ⟨rfl, rfl, ?_, ?_, ?_, rfl⟩ <;> rfl

/-- Claim C2: refuted on the source (code bug).  A committed crop stores
only the center-based fields (`centerX`, `centerY`, `boxWidth`,
`boxHeight`), yet the submission path `applyCropToFile` reads the
corner-based fields `x`, `y`, `width`, `height`, which no code ever
writes.  For a crop committed with center (50, 50) and box 60×60 (scale
1), the submitted payload is drawn on a 0×0 canvas with no source
rectangle at all — not the 60×60 region centered at (50, 50) that the
claim requires. -/
theorem C2_submission_drops_crop_region :
    (applyCropStore none 1 1 20 20 60 60).cropped = true ∧
    (applyCropStore none 1 1 20 20 60 60).centerX = some 50 ∧
    (applyCropStore none 1 1 20 20 60 60).centerY = some 50 ∧
    (applyCropStore none 1 1 20 20 60 60).boxWidth = some 60 ∧
    (applyCropStore none 1 1 20 20 60 60).boxHeight = some 60 ∧
    (applyCropStore none 1 1 20 20 60 60).x = none ∧
    (applyCropStore none 1 1 20 20 60 60).width = none ∧
    handleCreatePostItem smallFileA (some (applyCropStore none 1 1 20 20 60 60)) =
      .croppedBlob ((0, 0), none) := by
  refine ⟨rfl, ?_, ?_, ?_, ?_, rfl, rfl, ?_⟩ <;>
    norm_num [applyCropStore, handleCreatePostItem, applyCropToFile, jsCanvasDim]

/-- Claim C3 counterexample: selection is not additive and the count
limit is not checked against the combined total.  With one existing item
`smallFileA`, selecting `[smallFileB]` yields exactly `[smallFileB]`,
not the appended list the claim requires; and with fifteen existing
items, a batch of ten is accepted and replaces the list, though the
claim requires the whole batch to be rejected (15 + 10 > 20) leaving the
existing list untouched. -/
theorem C3_not_additive_counterexample :
    (handleMediaSelect (fun _ => true) (fun _ _ _ => none) ingestExampleState
        [smallFileB]).selectedFiles = [smallFileB] ∧
    [smallFileB] ≠ [smallFileA, smallFileB] ∧
    (handleMediaSelect (fun _ => true) (fun _ _ _ => none) fifteenState
        (List.replicate 10 smallFileB)).selectedFiles =
      List.replicate 10 smallFileB ∧
    List.replicate 10 smallFileB ≠ fifteenState.selectedFiles := by
  refine ⟨by decide, by decide, by decide, by decide⟩

/-- Claim C3 (amended): a newly selected batch replaces the existing
ordered list entirely (it is mapped through the per-file processing
step), and the batch is rejected with a count-limit error exactly when
the new batch alone has more than 20 files; rejection leaves the whole
composer state untouched. -/
theorem C3_handleMediaSelect_replaces {β : Type} (decodeOk : JSFile → Bool)
    (toBlob : String → ℚ → ℚ × ℚ → Option JSFile)
    (s : ComposerState JSFile β) (files : List JSFile) :
    (files.length ≤ 20 →
      (handleMediaSelect decodeOk toBlob s files).selectedFiles =
        files.map (processFileStep decodeOk toBlob)) ∧
    (20 < files.length → handleMediaSelect decodeOk toBlob s files = s) := by
  constructor <;> intro h
  · simp [handleMediaSelect, Nat.not_lt.2 h]
  · simp [handleMediaSelect, h]

/-- Claim C3 amended-theorem witness at concrete inputs. -/
theorem C3_handleMediaSelect_replaces_witness :
    (handleMediaSelect (fun _ => true) (fun _ _ _ => none) ingestExampleState
        [smallFileB]).selectedFiles =
      [smallFileB].map (processFileStep (fun _ => true) (fun _ _ _ => none)) ∧
    handleMediaSelect (fun _ => true) (fun _ _ _ => none) ingestExampleState
        (List.replicate 21 smallFileB) = ingestExampleState := by
  constructor
  · exact (C3_handleMediaSelect_replaces (fun _ => true) (fun _ _ _ => none)
      ingestExampleState [smallFileB]).1 (by norm_num)
  · exact (C3_handleMediaSelect_replaces (fun _ => true) (fun _ _ _ => none)
      ingestExampleState (List.replicate 21 smallFileB)).2 (by norm_num)

/-- Claim C8 counterexample: when `canvas.toBlob` produces no blob for
an oversized image, `resizeImage`/`processImage` do reject, but
`handleMediaSelect`'s `try/catch` swallows the failure and pushes the
original, unprocessed file: the accepted output contains the original
payload and no failure reaches ingestion's caller, contradicting the
claim that an explicit failure is returned rather than any payload being
substituted. -/
theorem C8_failure_swallowed_counterexample :
    processImage (fun _ => true) (fun _ _ _ => none) bigFile =
      .error "Failed to resize image" ∧
    processFileStep (fun _ => true) (fun _ _ _ => none) bigFile = bigFile ∧
    (handleMediaSelect (fun _ => true) (fun _ _ _ => none) ingestExampleState
        [bigFile]).selectedFiles = [bigFile] := by
  refine ⟨rfl, by decide, by decide⟩

/-- Claim C8 (amended): on re-encode failure (`toBlob` yields no blob)
for an oversized image, `resizeImage` itself fails explicitly — the
promise rejects with `Failed to resize image` and `processImage`
propagates that error — but `handleMediaSelect` catches the error and
silently substitutes the original, unmodified file into the accepted
batch; no failure is returned to ingestion's caller. -/
theorem C8_resizeImage_error_caught (decodeOk : JSFile → Bool)
    (toBlob : String → ℚ → ℚ × ℚ → Option JSFile) (f : JSFile)
    (hsize : MAX_FILE_SIZE < f.size)
    (hdec : decodeOk f = true)
    (hblob : toBlob f.ftype (9 / 10) (resizeDims f.naturalW f.naturalH) = none)
    (himg : typeStartsWithImage f.ftype = true) :
    processImage decodeOk toBlob f = .error "Failed to resize image" ∧
    processFileStep decodeOk toBlob f = f := by
  have hp : processImage decodeOk toBlob f = .error "Failed to resize image" := by
    simp [processImage, hsize, resizeImage, hdec, hblob]
  exact ⟨hp, by simp [processFileStep, himg, hp]⟩

/-- Claim C8 amended-theorem witness at a concrete oversized file. -/
theorem C8_resizeImage_error_caught_witness :
    processImage (fun _ => true) (fun _ _ _ => none) bigFile =
      .error "Failed to resize image" ∧
    processFileStep (fun _ => true) (fun _ _ _ => none) bigFile = bigFile :=
  C8_resizeImage_error_caught (fun _ => true) (fun _ _ _ => none) bigFile
    (by norm_num [MAX_FILE_SIZE, bigFile]) rfl rfl (by decide)

/-- The downscale dimension computation preserves the aspect ratio
exactly (as a cross-multiplication identity) and caps both output
dimensions at 1080. -/
theorem resizeDims_spec (w h : ℚ) (hw : 0 ≤ w) (hh : 0 ≤ h) :
    (resizeDims w h).1 * h = (resizeDims w h).2 * w ∧
    (resizeDims w h).1 ≤ 1080 ∧ (resizeDims w h).2 ≤ 1080 := by
  unfold resizeDims
  split_ifs with h1 h2
  · obtain ⟨hhw, hW⟩ := h1
    have hw0 : (0 : ℚ) < w := lt_trans (by norm_num) hW
    refine ⟨by field_simp; ring, le_refl _, ?_⟩
    rw [div_le_iff hw0]
    nlinarith
  · have hh0 : (0 : ℚ) < h := lt_trans (by norm_num) h2
    push_neg at h1
    have hwh : w ≤ h := by
      by_contra hcon
      push_neg at hcon
      have := h1 hcon
      linarith
    refine ⟨by field_simp; ring, ?_, le_refl _⟩
    rw [div_le_iff hh0]
    nlinarith
  · push_neg at h1
    have hhle : h ≤ 1080 := le_of_not_lt h2
    have hwle : w ≤ 1080 := by
      by_contra hcon
      push_neg at hcon
      have := h1
      rcases lt_or_le h w with hc | hc
      · linarith [h1 hc]
      · linarith
    exact ⟨by ring, hwle, hhle⟩

/-- Claim C9: confirmed.  For an image file over the 8 MiB threshold
that decodes successfully and re-encodes successfully, the processed
output is exactly the blob produced by `toBlob` called with the original
mime type, quality factor 0.9, and the capped dimensions (rewrapped
under the original name and type); the capped dimensions preserve the
original aspect ratio exactly and are both at most 1080; non-image files
and images at or under the threshold pass through unmodified. -/
theorem C9_processImage_downscale (decodeOk : JSFile → Bool)
    (toBlob : String → ℚ → ℚ × ℚ → Option JSFile) (f blob : JSFile)
    (himg : typeStartsWithImage f.ftype = true)
    (hsize : MAX_FILE_SIZE < f.size)
    (hdec : decodeOk f = true)
    (hblob : toBlob f.ftype (9 / 10) (resizeDims f.naturalW f.naturalH) = some blob)
    (hw : 0 ≤ f.naturalW) (hh : 0 ≤ f.naturalH) :
    processFileStep decodeOk toBlob f =
      { blob with name := f.name, ftype := f.ftype } ∧
    (resizeDims f.naturalW f.naturalH).1 * f.naturalH =
      (resizeDims f.naturalW f.naturalH).2 * f.naturalW ∧
    (resizeDims f.naturalW f.naturalH).1 ≤ 1080 ∧
    (resizeDims f.naturalW f.naturalH).2 ≤ 1080 ∧
    (∀ g : JSFile, typeStartsWithImage g.ftype = false →
      processFileStep decodeOk toBlob g = g) ∧
    (∀ g : JSFile, g.size ≤ MAX_FILE_SIZE →
      processImage decodeOk toBlob g = .ok g ∧
      processFileStep decodeOk toBlob g = g) := by
  obtain ⟨hratio, hwb, hhb⟩ := resizeDims_spec f.naturalW f.naturalH hw hh
  refine ⟨?_, hratio, hwb, hhb, ?_, ?_⟩
  · simp [processFileStep, himg, processImage, hsize, resizeImage, hdec, hblob]
  · intro g hg
    simp [processFileStep, hg]
  · intro g hg
    refine ⟨by simp [processImage, Nat.not_lt.2 hg], ?_⟩
    by_cases himg2 : typeStartsWithImage g.ftype <;>
      simp [processFileStep, himg2, processImage, Nat.not_lt.2 hg]

/-- Claim C9 witness at concrete inputs: the oversized 2000×1000 file is
re-encoded at the capped dimensions, a text file and a small image pass
through. -/
theorem C9_processImage_downscale_witness :
    processFileStep (fun _ => true) (fun _ _ _ => some smallFileB) bigFile =
      { smallFileB with name := bigFile.name, ftype := bigFile.ftype } ∧
    (resizeDims bigFile.naturalW bigFile.naturalH).1 * bigFile.naturalH =
      (resizeDims bigFile.naturalW bigFile.naturalH).2 * bigFile.naturalW ∧
    (resizeDims bigFile.naturalW bigFile.naturalH).1 ≤ 1080 ∧
    (resizeDims bigFile.naturalW bigFile.naturalH).2 ≤ 1080 ∧
    processFileStep (fun _ => true) (fun _ _ _ => some smallFileB) textFile =
      textFile ∧
    processFileStep (fun _ => true) (fun _ _ _ => some smallFileB) smallFileA =
      smallFileA := by
  have h := C9_processImage_downscale (fun _ => true) (fun _ _ _ => some smallFileB)
    bigFile smallFileB (by decide) (by norm_num [MAX_FILE_SIZE, bigFile]) rfl rfl
    (by norm_num [bigFile]) (by norm_num [bigFile])
  exact ⟨h.1, h.2.1, h.2.2.1, h.2.2.2.1,
    h.2.2.2.2.1 textFile (by decide),
    (h.2.2.2.2.2 smallFileA (by norm_num [MAX_FILE_SIZE, smallFileA])).2⟩

/-- Claim C10: confirmed.  When `handleMediaSelect` accepts a batch it
writes only `selectedFiles` (the processed batch); `cropData` and
`currentCarouselIndex` are untouched, so stale crop entries stay keyed
to their numeric indices and apply to whatever items now occupy them,
and the cursor can exceed the new list's length (demonstrated on a
three-item state with cursor 2 accepting a one-file batch, where the
stale crop entry at index 2 also survives). -/
theorem C10_handleMediaSelect_frame {β : Type} (decodeOk : JSFile → Bool)
    (toBlob : String → ℚ → ℚ × ℚ → Option JSFile)
    (s : ComposerState JSFile β) (files : List JSFile)
    (hlen : files.length ≤ 20) :
    (handleMediaSelect decodeOk toBlob s files).cropData = s.cropData ∧
    (handleMediaSelect decodeOk toBlob s files).currentCarouselIndex =
      s.currentCarouselIndex ∧
    (handleMediaSelect decodeOk toBlob s files).selectedFiles =
      files.map (processFileStep decodeOk toBlob) ∧
    (handleMediaSelect decodeOk toBlob threeState
        [smallFileA]).selectedFiles.length ≤
      (handleMediaSelect decodeOk toBlob threeState
        [smallFileA]).currentCarouselIndex ∧
    (handleMediaSelect decodeOk toBlob threeState [smallFileA]).cropData 2 =
      some 7 := by
  refine ⟨?_, ?_, ?_, ?_, ?_⟩ <;>
    simp [handleMediaSelect, Nat.not_lt.2 hlen, threeState]

/-- Claim C10 witness at concrete inputs. -/
theorem C10_handleMediaSelect_frame_witness :
    (handleMediaSelect (fun _ => true) (fun _ _ _ => none) ingestExampleState
        [smallFileB]).cropData = ingestExampleState.cropData ∧
    (handleMediaSelect (fun _ => true) (fun _ _ _ => none) ingestExampleState
        [smallFileB]).currentCarouselIndex =
      ingestExampleState.currentCarouselIndex := by
  have h := C10_handleMediaSelect_frame (fun _ => true) (fun _ _ _ => none)
    ingestExampleState [smallFileB] (by norm_num)
  exact ⟨h.1, h.2.1⟩

/-- Both recomputed box dimensions are nonnegative when the stored
dimensions and the ratio are. -/
theorem recomputeBox_nonneg (imgW imgH r sW sH : ℚ) (hr : 0 ≤ r)
    (hsW : 0 ≤ sW) (hsH : 0 ≤ sH) :
    0 ≤ (recomputeBox imgW imgH r sW sH).1 ∧
    0 ≤ (recomputeBox imgW imgH r sW sH).2 := by
  unfold recomputeBox
  split_ifs <;> constructor <;> positivity

/-- The clamp step yields a nonnegative box lying fully inside
`[0, imgW] × [0, imgH]` whenever the image and box dimensions are
nonnegative. -/
theorem clampedCrop_contained (imgW imgH cX cY bW bH : ℚ)
    (hW : 0 ≤ imgW) (hH : 0 ≤ imgH) (hbW : 0 ≤ bW) (hbH : 0 ≤ bH) :
    0 ≤ (clampedCrop imgW imgH cX cY bW bH).1 ∧
    0 ≤ (clampedCrop imgW imgH cX cY bW bH).2.1 ∧
    0 ≤ (clampedCrop imgW imgH cX cY bW bH).2.2.1 ∧
    0 ≤ (clampedCrop imgW imgH cX cY bW bH).2.2.2 ∧
    (clampedCrop imgW imgH cX cY bW bH).1 +
      (clampedCrop imgW imgH cX cY bW bH).2.2.1 ≤ imgW ∧
    (clampedCrop imgW imgH cX cY bW bH).2.1 +
      (clampedCrop imgW imgH cX cY bW bH).2.2.2 ≤ imgH := by
  unfold clampedCrop
  simp only
  have hx0 : (0 : ℚ) ≤ max 0 (min (cX - bW / 2) (imgW - bW)) := le_max_left _ _
  have hy0 : (0 : ℚ) ≤ max 0 (min (cY - bH / 2) (imgH - bH)) := le_max_left _ _
  have hxW : max 0 (min (cX - bW / 2) (imgW - bW)) ≤ imgW :=
    max_le hW (le_trans (min_le_right _ _) (by linarith))
  have hyH : max 0 (min (cY - bH / 2) (imgH - bH)) ≤ imgH :=
    max_le hH (le_trans (min_le_right _ _) (by linarith))
  refine ⟨hx0, hy0, le_min hbW (by linarith), le_min hbH (by linarith), ?_, ?_⟩
  · have := min_le_right bW (imgW - max 0 (min (cX - bW / 2) (imgW - bW)))
    linarith
  · have := min_le_right bH (imgH - max 0 (min (cY - bH / 2) (imgH - bH)))
    linarith

/-- Claim C5: confirmed.  The per-render recomputation keeps the stored
height and takes width = storedHeight·ratio whenever that width fits the
image width; otherwise it keeps the stored width and takes height =
storedWidth/ratio whenever that height fits the image height; and the
final rendered box — the recomputed dimensions positioned at the stored
center and clamped — is nonnegative and lies fully within
`[0, imgW] × [0, imgH]`. -/
theorem C5_recompute_prefers_and_clamps (imgW imgH r sW sH cX cY : ℚ)
    (hW : 0 ≤ imgW) (hH : 0 ≤ imgH) (hr : 0 < r)
    (hsW : 0 ≤ sW) (hsH : 0 ≤ sH) :
    (sH * r ≤ imgW → recomputeBox imgW imgH r sW sH = (sH * r, sH)) ∧
    (imgW < sH * r → sW / r ≤ imgH →
      recomputeBox imgW imgH r sW sH = (sW, sW / r)) ∧
    (0 ≤ (renderCroppedRegion imgW imgH r cX cY sW sH).1 ∧
     0 ≤ (renderCroppedRegion imgW imgH r cX cY sW sH).2.1 ∧
     0 ≤ (renderCroppedRegion imgW imgH r cX cY sW sH).2.2.1 ∧
     0 ≤ (renderCroppedRegion imgW imgH r cX cY sW sH).2.2.2 ∧
     (renderCroppedRegion imgW imgH r cX cY sW sH).1 +
       (renderCroppedRegion imgW imgH r cX cY sW sH).2.2.1 ≤ imgW ∧
     (renderCroppedRegion imgW imgH r cX cY sW sH).2.1 +
       (renderCroppedRegion imgW imgH r cX cY sW sH).2.2.2 ≤ imgH) := by
  obtain ⟨hb1, hb2⟩ := recomputeBox_nonneg imgW imgH r sW sH (le_of_lt hr) hsW hsH
  refine ⟨?_, ?_, ?_⟩
  · intro hfit
    simp [recomputeBox, hfit]
  · intro hnofit hfit
    rw [recomputeBox, if_neg (not_le.2 hnofit), if_pos hfit]
  · exact clampedCrop_contained imgW imgH cX cY _ _ hW hH hb1 hb2

/-- Claim C5 witness at a concrete 100×100 image with a 50×40 stored box
and ratio 1: the height-matching branch applies and the rendered box is
contained. -/
theorem C5_recompute_prefers_and_clamps_witness :
    recomputeBox 100 100 1 50 40 = (40 * 1, 40) ∧
    (renderCroppedRegion 100 100 1 50 50 50 40).1 +
      (renderCroppedRegion 100 100 1 50 50 50 40).2.2.1 ≤ 100 := by
  have h := C5_recompute_prefers_and_clamps 100 100 1 50 40 50 50
    (by norm_num) (by norm_num) (by norm_num) (by norm_num) (by norm_num)
  exact ⟨h.1 (by norm_num), h.2.2.2.2.2.2.1⟩

/-- The recomputed pair always satisfies width = height · ratio. -/
theorem recomputeBox_fst_eq_snd_mul (imgW imgH r sW sH : ℚ) (hr : r ≠ 0) :
    (recomputeBox imgW imgH r sW sH).1 = (recomputeBox imgW imgH r sW sH).2 * r := by
  unfold recomputeBox
  split_ifs <;> first
    | rfl
    | (show sW = sW / r * r; rw [div_mul_cancel₀ _ hr])

/-- Any ratio-consistent pair is a fixed point of the recomputation. -/
theorem recomputeBox_fixed (imgW imgH r w h : ℚ) (hr : r ≠ 0)
    (hw : w = h * r) : recomputeBox imgW imgH r w h = (w, h) := by
  have hdiv : w / r = h := by rw [hw, mul_div_cancel_right₀ _ hr]
  unfold recomputeBox
  split_ifs <;> simp [hw, mul_div_cancel_right₀ _ hr]

/-- Claim C7: confirmed.  Recomputing the box dimensions a second time
with the same target ratio returns the same pair, and the recomputation
positions the derived box exactly at the stored center (the stored
center itself is read-only in this path, so it is preserved across
ratio switches). -/
theorem C7_recompute_idempotent_center (imgW imgH r sW sH cX cY : ℚ)
    (hr : r ≠ 0) :
    recomputeBox imgW imgH r (recomputeBox imgW imgH r sW sH).1
      (recomputeBox imgW imgH r sW sH).2 = recomputeBox imgW imgH r sW sH ∧
    (preClampCrop imgW imgH r cX cY sW sH).1 +
      (preClampCrop imgW imgH r cX cY sW sH).2.2.1 / 2 = cX ∧
    (preClampCrop imgW imgH r cX cY sW sH).2.1 +
      (preClampCrop imgW imgH r cX cY sW sH).2.2.2 / 2 = cY := by
  refine ⟨?_, ?_, ?_⟩
  · rw [recomputeBox_fixed imgW imgH r (recomputeBox imgW imgH r sW sH).1
      (recomputeBox imgW imgH r sW sH).2 hr
      (recomputeBox_fst_eq_snd_mul imgW imgH r sW sH hr)]
  · simp only [preClampCrop]
    ring
  · simp only [preClampCrop]
    ring

/-- Claim C7 witness at a concrete input. -/
theorem C7_recompute_idempotent_center_witness :
    recomputeBox 100 100 1 (recomputeBox 100 100 1 50 40).1
      (recomputeBox 100 100 1 50 40).2 = recomputeBox 100 100 1 50 40 ∧
    (preClampCrop 100 100 1 30 70 50 40).1 +
      (preClampCrop 100 100 1 30 70 50 40).2.2.1 / 2 = 30 :=
  ⟨(C7_recompute_idempotent_center 100 100 1 50 40 30 70 (by norm_num)).1,
   (C7_recompute_idempotent_center 100 100 1 50 40 30 70 (by norm_num)).2.1⟩

/-- Claim C6: refuted on the source (code bug).  A west-handle drag on a
100×200 image (display scale 1, ratio 1) with start box (10, 0, 50, 50)
and mouse delta (−300, 0): the left-edge clamp shrinks the width to 100
without re-deriving the height, and the subsequent bottom-edge re-shrink
re-derives the width as 200 with no further right-edge check, leaving
the final box (0, 0, 200, 200) sticking 100 pixels past the image's
right edge.  The same drag with ratio 10 yields (0, 0, 100, 35): the
width/height ratio is 100/35 ≠ 10 and the height is below the 50-pixel
floor.  The claim requires containment, exact ratio and the floor for
every produced window. -/
theorem C6_resize_escapes_bounds_ratio_floor :
    resizeStep ⟨false, false, true, false⟩ 1 50 0 0 100 200 10 0 50 50 (-300) 0 =
      (0, 0, 200, 200) ∧
    ((0 : ℚ) + 200 > 0 + 100) ∧
    resizeStep ⟨false, false, true, false⟩ 10 50 0 0 100 200 10 0 50 50 (-300) 0 =
      (0, 0, 100, 35) ∧
    ((100 : ℚ) ≠ 35 * 10) ∧ ((35 : ℚ) < 50) := by
  refine ⟨?_, by norm_num, ?_, by norm_num, by norm_num⟩ <;>
    (simp only [resizeStep]; norm_num)

/-- Indexing after a two-position swap. -/
theorem listSwap_getElem? {α : Type} (l : List α) {i j : Nat} (k : Nat)
    (hi : i < l.length) (hj : j < l.length) :
    (listSwap l i j)[k]? =
      if k = j then l[i]? else if k = i then l[j]? else l[k]? := by
  have ha : l[i]? = some (l.get ⟨i, hi⟩) := List.getElem?_eq_getElem hi
  have hb : l[j]? = some (l.get ⟨j, hj⟩) := List.getElem?_eq_getElem hj
  unfold listSwap
  rw [ha, hb]
  simp only
  rw [List.getElem?_set, List.getElem?_set]
  by_cases hkj : k = j
  · subst hkj
    simp [List.length_set, hj, ha]
  · have hjk : ¬ j = k := fun h => hkj h.symm
    by_cases hki : k = i
    · subst hki
      simp [hjk, hi, hb, hkj]
    · have hik : ¬ i = k := fun h => hki h.symm
      simp [hjk, hik, hkj, hki]

/-- `moveMediaUp(i)` on a valid index realises the transposition
`upPerm i`: item and crop entry travel together, and the cursor follows
the permutation. -/
theorem moveMediaUp_spec {α β : Type} (s : ComposerState α β) (i : Nat)
    (hi0 : 0 < i) (hi : i < s.selectedFiles.length) :
    (∀ j, (moveMediaUp s i).selectedFiles[upPerm i j]? = s.selectedFiles[j]?) ∧
    (∀ j, (moveMediaUp s i).cropData (upPerm i j) = s.cropData j) ∧
    (moveMediaUp s i).currentCarouselIndex = upPerm i s.currentCarouselIndex := by
  have hi1 : i - 1 < s.selectedFiles.length := lt_of_le_of_lt (Nat.sub_le i 1) hi
  have hlt : i - 1 < i := Nat.sub_lt hi0 one_pos
  have hne : ¬ (i : Nat) = i - 1 := fun h => absurd h.symm (Nat.ne_of_lt hlt)
  refine ⟨?_, ?_, ?_⟩
  · intro j
    rw [moveMediaUp, if_pos hi0]
    simp only
    rw [listSwap_getElem? _ _ hi hi1]
    unfold upPerm
    by_cases h1 : j = i
    · subst h1
      simp
    · by_cases h2 : j = i - 1
      · subst h2
        simp [h1, hne]
      · have h3 : ¬ j = i - 1 := h2
        simp [h1, h2, h3]
  · intro j
    rw [moveMediaUp, if_pos hi0]
    simp only
    unfold upPerm
    by_cases h1 : j = i
    · subst h1
      simp [hne, Ne.symm hne]
    · by_cases h2 : j = i - 1
      · subst h2
        simp [h1]
      · simp [h1, h2]
  · rw [moveMediaUp, if_pos hi0]
    rfl

/-- `moveMediaDown(i)` on a valid index realises the transposition
`downPerm i`. -/
theorem moveMediaDown_spec {α β : Type} (s : ComposerState α β) (i : Nat)
    (hi : i + 1 < s.selectedFiles.length) :
    (∀ j, (moveMediaDown s i).selectedFiles[downPerm i j]? = s.selectedFiles[j]?) ∧
    (∀ j, (moveMediaDown s i).cropData (downPerm i j) = s.cropData j) ∧
    (moveMediaDown s i).currentCarouselIndex = downPerm i s.currentCarouselIndex := by
  have hi0 : i < s.selectedFiles.length := Nat.lt_of_succ_lt hi
  have hne : ¬ (i : Nat) = i + 1 := Nat.ne_of_lt (Nat.lt_succ_self i)
  refine ⟨?_, ?_, ?_⟩
  · intro j
    rw [moveMediaDown, if_pos hi]
    simp only
    rw [listSwap_getElem? _ _ hi0 hi]
    unfold downPerm
    by_cases h1 : j = i
    · subst h1
      simp
    · by_cases h2 : j = i + 1
      · subst h2
        simp [h1, hne]
      · simp [h1, h2]
  · intro j
    rw [moveMediaDown, if_pos hi]
    simp only
    unfold downPerm
    by_cases h1 : j = i
    · subst h1
      simp [hne, Ne.symm hne]
    · by_cases h2 : j = i + 1
      · subst h2
        simp [h1]
      · simp [h1, h2]
  · rw [moveMediaDown, if_pos hi]
    rfl

/-- `moveMediaToFirst(i)` on a valid index realises `toFirstPerm i`:
item and crop entry travel together to the front, and the cursor follows
the permutation. -/
theorem moveMediaToFirst_spec {α β : Type} (s : ComposerState α β) (i : Nat)
    (hi0 : 0 < i) (hi : i < s.selectedFiles.length) :
    (∀ j, (moveMediaToFirst s i).selectedFiles[toFirstPerm i j]? =
      s.selectedFiles[j]?) ∧
    (∀ j, (moveMediaToFirst s i).cropData (toFirstPerm i j) = s.cropData j) ∧
    (moveMediaToFirst s i).currentCarouselIndex =
      toFirstPerm i s.currentCarouselIndex := by
  have hx : s.selectedFiles[i]? = some (s.selectedFiles.get ⟨i, hi⟩) :=
    List.getElem?_eq_getElem hi
  refine ⟨?_, ?_, ?_⟩
  · intro j
    rw [moveMediaToFirst, if_pos hi0]
    simp only [hx]
    unfold toFirstPerm
    by_cases h1 : j = i
    · subst h1
      simp [hx]
    · by_cases h2 : j < i
      · rw [if_neg h1, if_pos h2, List.getElem?_cons_succ]
        exact List.getElem?_eraseIdx_of_lt _ _ _ h2
      · rw [if_neg h1, if_neg h2]
        have hij : i < j := lt_of_le_of_ne (Nat.le_of_not_lt h2) (Ne.symm h1)
        obtain ⟨m, rfl⟩ :=
          Nat.exists_eq_succ_of_ne_zero (Nat.pos_iff_ne_zero.1
            (lt_of_le_of_lt (Nat.zero_le i) hij))
        rw [List.getElem?_cons_succ]
        exact List.getElem?_eraseIdx_of_ge _ _ _ (Nat.lt_succ_iff.1 hij)
  · intro j
    rw [moveMediaToFirst, if_pos hi0]
    simp only
    unfold toFirstPerm
    by_cases h1 : j = i
    · subst h1
      simp
    · by_cases h2 : j < i
      · rw [if_neg h1, if_pos h2]
        simp [Nat.succ_ne_zero, Nat.succ_le_of_lt h2]
      · have hij : i < j := lt_of_le_of_ne (Nat.le_of_not_lt h2) (Ne.symm h1)
        rw [if_neg h1, if_neg h2]
        have hj0 : ¬ j = 0 := by omega
        have hji : ¬ j ≤ i := by omega
        simp [hj0, hji]
  · rw [moveMediaToFirst, if_pos hi0]
    rfl

/-- `moveMediaToLast(i)` on a valid index realises `toLastPerm`: for
every in-range index, item and crop entry travel together (stale crop
keys at or beyond the list length being absent), and the cursor follows
the permutation. -/
theorem moveMediaToLast_spec {α β : Type} (s : ComposerState α β) (i : Nat)
    (hi : i + 1 < s.selectedFiles.length)
    (hbound : ∀ k, s.selectedFiles.length ≤ k → s.cropData k = none) :
    (∀ j, j < s.selectedFiles.length →
      (moveMediaToLast s i).selectedFiles[toLastPerm s.selectedFiles.length i j]? =
        s.selectedFiles[j]?) ∧
    (∀ j, j < s.selectedFiles.length →
      (moveMediaToLast s i).cropData (toLastPerm s.selectedFiles.length i j) =
        s.cropData j) ∧
    (moveMediaToLast s i).currentCarouselIndex =
      toLastPerm s.selectedFiles.length i s.currentCarouselIndex := by
  have hi0 : i < s.selectedFiles.length := Nat.lt_of_succ_lt hi
  have hilt : i < s.selectedFiles.length - 1 := by omega
  have hx : s.selectedFiles[i]? = some (s.selectedFiles.get ⟨i, hi0⟩) :=
    List.getElem?_eq_getElem hi0
  have hel : (s.selectedFiles.eraseIdx i).length = s.selectedFiles.length - 1 := by
    rw [List.length_eraseIdx, if_pos hi0]
  refine ⟨?_, ?_, ?_⟩
  · intro j hj
    rw [moveMediaToLast, if_pos hi]
    simp only [hx]
    unfold toLastPerm
    by_cases h1 : j = i
    · subst h1
      rw [if_pos rfl, List.getElem?_append_right (le_of_eq hel), hel]
      simp [hx]
    · by_cases h2 : i < j
      · rw [if_neg h1, if_pos h2, List.getElem?_append,
          if_pos (by rw [hel]; omega)]
        have hstep := List.getElem?_eraseIdx_of_ge s.selectedFiles i (j - 1)
          (by omega)
        rw [hstep]
        congr 1
        omega
      · have h3 : j < i := by omega
        rw [if_neg h1, if_neg h2, List.getElem?_append,
          if_pos (by rw [hel]; omega)]
        exact List.getElem?_eraseIdx_of_lt _ _ _ h3
  · intro j hj
    rw [moveMediaToLast, if_pos hi]
    simp only
    unfold toLastPerm
    by_cases h1 : j = i
    · subst h1
      rw [if_pos rfl]
      by_cases hs : (s.cropData j).isSome
      · rw [if_pos ⟨rfl, hs⟩]
      · rw [if_neg (fun hc => hs hc.2), if_neg (by omega : ¬ s.selectedFiles.length - 1 < j)]
        have hlen1 : s.selectedFiles.length - 1 + 1 = s.selectedFiles.length := by
          omega
        rw [hlen1, hbound _ (le_refl _)]
        cases hq : s.cropData j with
        | none => rfl
        | some v => rw [hq] at hs; simp at hs
    · by_cases h2 : i < j
      · rw [if_neg h1, if_pos h2,
          if_neg (fun hc => absurd hc.1 (by omega)),
          if_neg (by omega : ¬ j - 1 < i)]
        congr 1
        omega
      · have h3 : j < i := by omega
        rw [if_neg h1, if_neg h2,
          if_neg (fun hc => absurd hc.1 (by omega)), if_pos h3]
  · rw [moveMediaToLast, if_pos hi]
    rfl

/-- Claim C4: confirmed.  Each of `moveMediaUp`, `moveMediaDown`,
`moveMediaToFirst`, `moveMediaToLast` on a valid index realises an
explicit index permutation under which every in-range item and its crop
entry travel together — a crop window never shifts to a different
underlying image — and the carousel cursor ends up referencing the same
underlying image as before, following the moved item when it was on it
(for `moveMediaToLast`, stale crop keys at or beyond the list length are
assumed absent, which every in-range state satisfies). -/
theorem C4_reorder_content_preserving {α β : Type}
    (s : ComposerState α β) (i : Nat) :
    (0 < i → i < s.selectedFiles.length →
      (∀ j, j < s.selectedFiles.length →
        (moveMediaUp s i).selectedFiles[upPerm i j]? = s.selectedFiles[j]? ∧
        (moveMediaUp s i).cropData (upPerm i j) = s.cropData j) ∧
      (s.currentCarouselIndex < s.selectedFiles.length →
        (moveMediaUp s i).selectedFiles[(moveMediaUp s i).currentCarouselIndex]? =
          s.selectedFiles[s.currentCarouselIndex]?)) ∧
    (i + 1 < s.selectedFiles.length →
      (∀ j, j < s.selectedFiles.length →
        (moveMediaDown s i).selectedFiles[downPerm i j]? = s.selectedFiles[j]? ∧
        (moveMediaDown s i).cropData (downPerm i j) = s.cropData j) ∧
      (s.currentCarouselIndex < s.selectedFiles.length →
        (moveMediaDown s i).selectedFiles[(moveMediaDown s i).currentCarouselIndex]? =
          s.selectedFiles[s.currentCarouselIndex]?)) ∧
    (0 < i → i < s.selectedFiles.length →
      (∀ j, j < s.selectedFiles.length →
        (moveMediaToFirst s i).selectedFiles[toFirstPerm i j]? =
          s.selectedFiles[j]? ∧
        (moveMediaToFirst s i).cropData (toFirstPerm i j) = s.cropData j) ∧
      (s.currentCarouselIndex < s.selectedFiles.length →
        (moveMediaToFirst s i).selectedFiles[
            (moveMediaToFirst s i).currentCarouselIndex]? =
          s.selectedFiles[s.currentCarouselIndex]?)) ∧
    (i + 1 < s.selectedFiles.length →
      (∀ k, s.selectedFiles.length ≤ k → s.cropData k = none) →
      (∀ j, j < s.selectedFiles.length →
        (moveMediaToLast s i).selectedFiles[
            toLastPerm s.selectedFiles.length i j]? = s.selectedFiles[j]? ∧
        (moveMediaToLast s i).cropData (toLastPerm s.selectedFiles.length i j) =
          s.cropData j) ∧
      (s.currentCarouselIndex < s.selectedFiles.length →
        (moveMediaToLast s i).selectedFiles[
            (moveMediaToLast s i).currentCarouselIndex]? =
          s.selectedFiles[s.currentCarouselIndex]?)) := by
  refine ⟨?_, ?_, ?_, ?_⟩
  · intro hi0 hi
    obtain ⟨hf, hc, hcur⟩ := moveMediaUp_spec s i hi0 hi
    exact ⟨fun j _ => ⟨hf j, hc j⟩, fun _ => by rw [hcur]; exact hf _⟩
  · intro hi
    obtain ⟨hf, hc, hcur⟩ := moveMediaDown_spec s i hi
    exact ⟨fun j _ => ⟨hf j, hc j⟩, fun _ => by rw [hcur]; exact hf _⟩
  · intro hi0 hi
    obtain ⟨hf, hc, hcur⟩ := moveMediaToFirst_spec s i hi0 hi
    exact ⟨fun j _ => ⟨hf j, hc j⟩, fun _ => by rw [hcur]; exact hf _⟩
  · intro hi hbound
    obtain ⟨hf, hc, hcur⟩ := moveMediaToLast_spec s i hi hbound
    exact ⟨fun j hj => ⟨hf j hj, hc j hj⟩,
      fun hcl => by rw [hcur]; exact hf _ hcl⟩

/-- Claim C4 witness on a concrete four-item state with crops at indices
0 and 2 and the cursor at index 2, moving index 2. -/
theorem C4_reorder_content_preserving_witness :
    ((moveMediaUp reorderExampleState 2).selectedFiles[upPerm 2 2]? =
        reorderExampleState.selectedFiles[2]? ∧
      (moveMediaUp reorderExampleState 2).cropData (upPerm 2 2) =
        reorderExampleState.cropData 2) ∧
    (moveMediaDown reorderExampleState 2).selectedFiles[
        (moveMediaDown reorderExampleState 2).currentCarouselIndex]? =
      reorderExampleState.selectedFiles[reorderExampleState.currentCarouselIndex]? ∧
    (moveMediaToFirst reorderExampleState 2).cropData (toFirstPerm 2 0) =
      reorderExampleState.cropData 0 ∧
    (moveMediaToLast reorderExampleState 2).cropData
        (toLastPerm reorderExampleState.selectedFiles.length 2 2) =
      reorderExampleState.cropData 2 := by
  have hbound : ∀ k, reorderExampleState.selectedFiles.length ≤ k →
      reorderExampleState.cropData k = none := by
    intro k hk
    simp only [reorderExampleState] at hk ⊢
    split_ifs with h1 h2
    · exact absurd h1 (by simp at hk; omega)
    · exact absurd h2 (by simp at hk; omega)
    · rfl
  have h := C4_reorder_content_preserving reorderExampleState 2
  refine ⟨(h.1 (by norm_num) (by simp [reorderExampleState])).1 2
      (by simp [reorderExampleState]), ?_, ?_, ?_⟩
  · exact (h.2.1 (by simp [reorderExampleState])).2 (by simp [reorderExampleState])
  · exact ((h.2.2.1 (by norm_num) (by simp [reorderExampleState])).1 0
      (by simp [reorderExampleState])).2
  · exact ((h.2.2.2 (by simp [reorderExampleState]) hbound).1 2
      (by simp [reorderExampleState])).2
